import Mathlib

/-!
Shallow embedding of the shellmcp configuration compiler and runtime
(`src/shellmcp/models.py`, `parser.py`, `generator.py`, `runner.py`, and the
retry loop of the generated `enhanced_mcp_server_server.py`), together with
theorems settling the frozen specification claims about it.

Conventions of the embedding:
* Python scalar values are `PyVal`; a Python `dict` is an insertion-ordered
  association list `PyDict`.
* The operating system (process runner, file system, ambient environment,
  regex engine) is an explicit `World` record; `subprocess.run` outcomes are
  `CmdOutcome`.
* Jinja2 templates are embedded as their parsed part lists (`Tmpl`); the
  `bad` part stands for a construct whose evaluation raises, so that render
  failures are representable.
* Fallible Python code returns `Except String`; an exception that escapes a
  handler (for example a `TypeError` raised while binding call arguments,
  before the handler body runs) is a `CallResult.typeError`.
-/

namespace Shellmcp

/-- Python scalar values as they occur in configuration defaults, choices and
result dictionaries.  `none` is Python `None`; numbers are modelled as
integers, which covers every value the source manipulates. -/
inductive PyVal where
  | none
  | str (s : String)
  | int (n : Int)
  | bool (b : Bool)
deriving DecidableEq, Repr

/-- A Python `dict` with string keys, as an insertion-ordered association
list. -/
abbrev PyDict := List (String × PyVal)

/-- Python `str()` of a value, as used when a value is interpolated into a
rendered template or passed through `str(...)`. -/
def pyStr : PyVal → String
  | .none => "None"
  | .str s => s
  | .int n => toString n
  | .bool b => if b then "True" else "False"

/-- Python truthiness of a value (`if value:`). -/
def pyTruthy : PyVal → Bool
  | .none => false
  | .str s => s ≠ ""
  | .int n => n ≠ 0
  | .bool b => b

/-- Python `repr` of a value, as interpolated by an f-string containing a
list (single quotes around strings). -/
def pyRepr : PyVal → String
  | .none => "None"
  | .str s => "'" ++ s ++ "'"
  | .int n => toString n
  | .bool b => if b then "True" else "False"

/-- Python `repr` of a list, e.g. `['cpu', 'memory', 'disk']`. -/
def pyReprList (xs : List PyVal) : String :=
  "[" ++ String.intercalate ", " (xs.map pyRepr) ++ "]"

/-- `base.copy()` followed by `base.update(upd)` on string-to-string dicts:
keys of `base` keep their position with values overridden by `upd`, and keys
only in `upd` are appended in order. -/
def dictUpdate (base upd : List (String × String)) : List (String × String) :=
  (base.map (fun kv => (kv.1, ((upd.lookup kv.1).getD kv.2)))) ++
    upd.filter (fun kv => (base.lookup kv.1).isNone)

/-- Outcome of one `subprocess.run(cmd, shell=True, ...)` call: normal
completion with an exit code and captured output, expiry of the wall-clock
timeout, or some other raised exception carrying its text. -/
inductive CmdOutcome where
  | completed (exitCode : Int) (stdout stderr : String)
  | timeout
  | exn (msg : String)
deriving DecidableEq, Repr

/-- The ambient operating system, abstracted: what `subprocess.run` does for
a given command text and environment, what the file system holds, the
process environment `os.environ`, and the `re.match` regex engine. -/
structure World where
  run : String → List (String × String) → CmdOutcome
  files : String → Option String
  osEnv : List (String × String)
  reMatch : String → String → Bool

/-- `execute_command` from `runner.py` (and the identical helper emitted by
`generator._generate_helper_functions`): merge the process environment with
the overrides, run the command, and fold every outcome into a four-field
result dictionary.  The exit-code field is named `returncode`. -/
def execute_command (w : World) (cmd : String) (envVars : List (String × String)) : PyDict :=
  let env := dictUpdate w.osEnv envVars
  match w.run cmd env with
  | .completed rc out err =>
      [("success", .bool (rc == 0)), ("stdout", .str out),
       ("stderr", .str err), ("returncode", .int rc)]
  | .timeout =>
      [("success", .bool false), ("stdout", .str ""),
       ("stderr", .str "Command timed out after 5 minutes"), ("returncode", .int (-1))]
  | .exn e =>
      [("success", .bool false), ("stdout", .str ""),
       ("stderr", .str e), ("returncode", .int (-1))]

/-- The keys of a result dictionary, in insertion order. -/
def resultKeys (d : PyDict) : List String := d.map Prod.fst

/-- One part of a parsed Jinja2 template: literal text, a variable
interpolation `{{ x }}`, or a construct whose evaluation raises (carrying
the exception text), which is how render-time failures of the template
language are represented. -/
inductive TmplPart where
  | lit (s : String)
  | var (x : String)
  | bad (msg : String)
deriving DecidableEq, Repr

/-- A Jinja2 template, as its parsed part list. -/
abbrev Tmpl := List TmplPart

/-- Evaluation of the template body by `jinja2.Template.render`: an unbound
variable renders as the empty string (the default `Undefined`), and a `bad`
part raises. -/
def renderParts (bindings : PyDict) : Tmpl → Except String String
  | [] => .ok ""
  | .lit s :: rest => (renderParts bindings rest).map (fun r => s ++ r)
  | .var x :: rest =>
      (renderParts bindings rest).map
        (fun r => (match bindings.lookup x with
                   | some v => pyStr v
                   | none => "") ++ r)
  | .bad msg :: _ => .error msg

/-- `render_template` from `runner.py` / the generated helpers: render the
template against the bindings plus built-ins, wrapping any exception into a
`ValueError` whose text is prefixed with `Template rendering error: `. -/
def render_template (t : Tmpl) (bindings : PyDict) : Except String String :=
  match renderParts bindings t with
  | .ok s => .ok s
  | .error e => .error ("Template rendering error: " ++ e)

/-- The four argument types of the configuration schema. -/
inductive ArgType where
  | string
  | number
  | boolean
  | array
deriving DecidableEq, Repr

/-- `ToolArgument` from `models.py`: a validated operation argument.  A
`default` of `PyVal.none` is Python `None`, i.e. no default. -/
structure ToolArgument where
  name : String
  help : String
  type : ArgType := .string
  default : PyVal := .none
  choices : Option (List PyVal) := Option.none
  pattern : Option String := Option.none
  ref : Option String := Option.none
deriving DecidableEq, Repr

/-- `ArgumentDefinition` from `models.py`: a reusable argument definition. -/
structure ArgumentDefinition where
  help : String
  type : ArgType := .string
  default : PyVal := .none
  choices : Option (List PyVal) := Option.none
  pattern : Option String := Option.none
deriving DecidableEq, Repr

/-- `ServerConfig` from `models.py`. -/
structure ServerConfig where
  name : String
  desc : String
  version : String := "1.0.0"
  env : Option (List (String × String)) := Option.none
deriving DecidableEq, Repr

/-- `ToolConfig` from `models.py`; the command is kept as its parsed
template. -/
structure ToolConfig where
  cmd : Tmpl
  desc : String
  help_cmd : Option String := Option.none
  args : Option (List ToolArgument) := Option.none
  env : Option (List (String × String)) := Option.none
deriving DecidableEq, Repr

/-- Resource model, as dispatched on by `runner._register_resource` and
built by `cli.py`.  Modelled from the spec: the `ResourceConfig` class
itself is outside this source snapshot (only its callers in `runner.py`,
`cli.py` and the tests are present); per spec section 3 a resource carries
URI, name, description, an argument list, and one content source among
command template, file-path template and literal text; the fields here are
exactly the ones `runner.py` reads. -/
structure ResourceConfig where
  uri : String
  name : String
  description : Option String := Option.none
  args : Option (List ToolArgument) := Option.none
  cmd : Option Tmpl := Option.none
  file : Option Tmpl := Option.none
  text : Option Tmpl := Option.none
  env : Option (List (String × String)) := Option.none
deriving DecidableEq, Repr

/-- `YMLConfig` from `models.py`: the validated root configuration.  The
`resources` map is read by `runner.py` (the class for its entries is
modelled above). -/
structure YMLConfig where
  server : ServerConfig
  args : Option (List (String × ArgumentDefinition)) := Option.none
  tools : Option (List (String × ToolConfig)) := Option.none
  resources : Option (List (String × ResourceConfig)) := Option.none
deriving DecidableEq, Repr

/-- `tool_name in self.tools` followed by `self.tools[tool_name]`. -/
def findTool (config : YMLConfig) (toolName : String) : Option ToolConfig :=
  (config.tools.getD []).lookup toolName

/-- Reference expansion of a single argument, from the loop body of
`YMLConfig.get_resolved_arguments`: an argument carrying a `ref` is replaced
by a new argument with the operation-local name and the referenced
definition's help, type, default, choices and pattern; a direct argument
passes through; an unresolved reference raises `ValueError`. -/
def resolveArg (config : YMLConfig) (arg : ToolArgument) : Except String ToolArgument :=
  match arg.ref with
  | Option.none => .ok arg
  | some r =>
      match (config.args.getD []).lookup r with
      | Option.none => .error ("Reference '" ++ r ++ "' not found in args section")
      | some refArg =>
          .ok { name := arg.name, help := refArg.help, type := refArg.type,
                default := refArg.default, choices := refArg.choices,
                pattern := refArg.pattern }

/-- The resolution loop of `get_resolved_arguments`, appending resolved
arguments in declaration order and aborting at the first unresolved
reference. -/
def resolveArgs (config : YMLConfig) : List ToolArgument → Except String (List ToolArgument)
  | [] => .ok []
  | a :: rest =>
      match resolveArg config a with
      | .error e => .error e
      | .ok r =>
          match resolveArgs config rest with
          | .error e => .error e
          | .ok rs => .ok (r :: rs)

/-- `YMLConfig.get_resolved_arguments` from `models.py`: empty list when the
tool is unknown or declares no arguments, otherwise the declaration-order
resolution of its argument list. -/
def get_resolved_arguments (config : YMLConfig) (toolName : String) :
    Except String (List ToolArgument) :=
  match findTool config toolName with
  | Option.none => .ok []
  | some tool =>
      match tool.args with
      | Option.none => .ok []
      | some args => resolveArgs config args

/-- Whether an argument carries a default (`arg.default is not None`). -/
def isDefaulted (a : ToolArgument) : Bool := a.default ≠ PyVal.none

/-- The parameter ordering built by both `generator._generate_tool_functions`
and `runner._register_tool`: a fold that appends each argument to the
without-defaults or with-defaults group, then concatenates the groups with
the default-less group first. -/
def sigStep (acc : List ToolArgument × List ToolArgument) (a : ToolArgument) :
    List ToolArgument × List ToolArgument :=
  if isDefaulted a then (acc.1, acc.2 ++ [a]) else (acc.1 ++ [a], acc.2)

/-- The two groups concatenated, default-less group first, as emitted into
the `def` line. -/
def signatureParams (resolvedArgs : List ToolArgument) : List ToolArgument :=
  let acc := resolvedArgs.foldl sigStep ([], [])
  acc.1 ++ acc.2

/-- The ordering property claimed of argument lists: every default-less
argument precedes every defaulted one (once a defaulted argument appears,
all later arguments are defaulted). -/
def defaultlessFirst : List ToolArgument → Bool
  | [] => true
  | a :: rest => if isDefaulted a then rest.all isDefaulted else defaultlessFirst rest

/-- Constructor-time input to the `ToolArgument` pydantic model: each
optional field is `some v` when supplied by the caller, `Option.none` when
omitted. -/
structure ToolArgumentInput where
  name : String
  help : String
  type? : Option ArgType := Option.none
  default? : Option PyVal := Option.none
  choices? : Option (List PyVal) := Option.none
  pattern? : Option String := Option.none
  ref? : Option String := Option.none
deriving DecidableEq, Repr

/-- The `validate_ref_exclusive` validator on `ToolArgument.ref`: scan the
conflicting fields `type`, `default`, `choices`, `pattern` in order through
the pydantic `values` dictionary and report the first one that is not
`None`.  Returns the offending field name, if any. -/
def validate_ref_exclusive (values_type : Option ArgType) (values_default : PyVal)
    (values_choices : Option (List PyVal)) (values_pattern : Option String) :
    Option String :=
  if values_type.isSome then some "type"
  else if values_default ≠ PyVal.none then some "default"
  else if values_choices.isSome then some "choices"
  else if values_pattern.isSome then some "pattern"
  else Option.none

/-- Field-by-field validation of a `ToolArgument` under pydantic v1
semantics: fields are processed in declaration order and a missing field's
default is written into `values` before later validators run, so when the
`ref` validator fires, `values['type']` holds the applied default
`"string"` and is never `None`.  The regex-compile check on `pattern` is
not modelled (the claims only use well-formed patterns). -/
def validateToolArgument (input : ToolArgumentInput) : Except String ToolArgument :=
  let tyVal : ArgType := input.type?.getD ArgType.string
  let dfVal : PyVal := input.default?.getD PyVal.none
  match input.ref? with
  | Option.none =>
      .ok { name := input.name, help := input.help, type := tyVal, default := dfVal,
            choices := input.choices?, pattern := input.pattern?, ref := Option.none }
  | some r =>
      match validate_ref_exclusive (some tyVal) dfVal input.choices? input.pattern? with
      | some f => .error ("Cannot use 'ref' with '" ++ f ++ "' - use one or the other")
      | Option.none =>
          .ok { name := input.name, help := input.help, type := tyVal, default := dfVal,
                choices := input.choices?, pattern := input.pattern?, ref := some r }

/-- A node of the Jinja2 template AST as the extraction loop in
`get_template_variables` reads it: only a possible `name` attribute is
inspected. -/
structure JinjaNode where
  name : Option String
deriving DecidableEq, Repr

/-- The attribute access `template.parse` inside
`YMLConfig.get_template_variables`: the `jinja2.Template` class defines no
`parse` attribute (source parsing lives on `jinja2.Environment`), so the
access raises `AttributeError` for every template. -/
def templateParse (_t : Tmpl) : Except String (List JinjaNode) :=
  .error "AttributeError: 'Template' object has no attribute 'parse'"

/-- `YMLConfig.get_template_variables` from `models.py`: empty list for an
unknown tool; otherwise the body builds a `Template` and iterates
`template.parse()`, and the `except Exception` arm turns the resulting
`AttributeError` into an empty list. -/
def get_template_variables (config : YMLConfig) (toolName : String) : List String :=
  match findTool config toolName with
  | Option.none => []
  | some tool =>
      match templateParse tool.cmd with
      | .error _ => []
      | .ok nodes => (nodes.filterMap JinjaNode.name).dedup

/-- The structured failure value built by every tool handler's outer
`except` arm: `Error in <tool>: <exception text>` in `stderr`, empty
`stdout`, `returncode` -1. -/
def toolFailureDict (toolName msg : String) : PyDict :=
  [("success", .bool false), ("stdout", .str ""),
   ("stderr", .str ("Error in " ++ toolName ++ ": " ++ msg)), ("returncode", .int (-1))]

/-- Result of calling a registered handler: either the call was bound and
the body ran, or binding the arguments itself raised `TypeError`, which
happens outside the handler's `try` block and so escapes it. -/
inductive CallResult (α : Type) where
  | ok (a : α)
  | typeError (msg : String)
deriving DecidableEq, Repr

/-- Python call binding for a `def` whose parameters carry no defaults (the
signatures that `runner.py` builds with `exec` list only the parameter
names): every parameter must be supplied, and a missing one raises
`TypeError` before the body runs. -/
def bindCall (paramNames : List String) (provided : PyDict) : CallResult PyDict :=
  match paramNames.find? (fun n => (provided.lookup n).isNone) with
  | some n => .typeError ("missing a required argument: '" ++ n ++ "'")
  | Option.none => .ok (paramNames.map (fun n => (n, (provided.lookup n).getD PyVal.none)))

/-- Python call binding for a signature with per-parameter defaults (the
signatures emitted by `generator.py`): a parameter not supplied by the
caller falls back to its default, and raises `TypeError` only when it has
none. -/
def bindCallWithDefaults (params : List (String × Option PyVal)) (provided : PyDict) :
    CallResult PyDict :=
  match params.find? (fun p => (provided.lookup p.1).isNone && p.2.isNone) with
  | some p => .typeError ("missing a required argument: '" ++ p.1 ++ "'")
  | Option.none =>
      .ok (params.map (fun p => (p.1, ((provided.lookup p.1).orElse (fun _ => p.2)).getD PyVal.none)))

/-- The `None`-check loop of the runtime-bound tool body: the first argument
whose value is `None`, scanning `args_dict` in order. -/
def firstNoneArg : PyDict → Option String
  | [] => Option.none
  | (n, v) :: rest => if v = PyVal.none then some n else firstNoneArg rest

/-- The `try` block of the tool function built by `runner._register_tool`:
reject a `None` argument, render the command template against `args_dict`,
and execute it with the tool's environment overrides.  Note that this body
performs no pattern or choice validation. -/
def runtimeToolTry (w : World) (tool : ToolConfig) (argsDict : PyDict) :
    Except String PyDict :=
  match firstNoneArg argsDict with
  | some n => .error ("Required argument '" ++ n ++ "' not provided")
  | Option.none =>
      match render_template tool.cmd argsDict with
      | .error e => .error e
      | .ok cmd => .ok (execute_command w cmd (tool.env.getD []))

/-- The whole runtime-bound tool body: the outer `except Exception` arm
converts any escaping exception of the `try` block into the structured
failure dictionary. -/
def runtimeToolBody (w : World) (toolName : String) (tool : ToolConfig)
    (argsDict : PyDict) : PyDict :=
  match runtimeToolTry w tool argsDict with
  | .ok r => r
  | .error e => toolFailureDict toolName e

/-- Invocation of the tool callable registered by `runner._register_tool`:
the `exec`-built signature lists the resolved argument names in declaration
order with no defaults attached (the collected `param_defaults` are never
used), then the body runs. -/
def runtimeToolInvoke (w : World) (toolName : String) (tool : ToolConfig)
    (resolved : List ToolArgument) (provided : PyDict) : CallResult PyDict :=
  match bindCall (resolved.map ToolArgument.name) provided with
  | .typeError m => .typeError m
  | .ok argsDict => .ok (runtimeToolBody w toolName tool argsDict)

/-- One argument's validation in the code emitted by
`generator._generate_argument_validation`: the pattern check
(`re.match(pattern, str(value))`) runs first and raises naming the argument
and pattern; then the choice check raises naming the argument and the
allowed list.  A falsy `pattern` (absent or empty) or falsy `choices`
(absent or empty list) emits no check at generation time. -/
def genValidateArg (w : World) (argsDict : PyDict) (a : ToolArgument) : Option String :=
  let v := (argsDict.lookup a.name).getD PyVal.none
  let patErr : Option String :=
    match a.pattern with
    | some p =>
        if p ≠ "" && w.reMatch p (pyStr v) = false then
          some ("Invalid " ++ a.name ++ ": must match pattern " ++ p)
        else Option.none
    | Option.none => Option.none
  match patErr with
  | some e => some e
  | Option.none =>
      match a.choices with
      | some cs =>
          if cs ≠ [] && cs.contains v = false then
            some ("Invalid " ++ a.name ++ ": must be one of " ++ pyReprList cs)
          else Option.none
      | Option.none => Option.none

/-- The emitted validation block, checking the resolved arguments in
declaration order and raising at the first violation. -/
def genValidate (w : World) (argsDict : PyDict) : List ToolArgument → Option String
  | [] => Option.none
  | a :: rest =>
      match genValidateArg w argsDict a with
      | some e => some e
      | Option.none => genValidate w argsDict rest

/-- The `try` block of a tool function emitted by
`generator._generate_tool_functions`: validate, then render, then execute.
The emitted render call passes the argument values positionally
(`render_template("""...""", arg1, ..., argN)`) although `render_template`
accepts extra arguments only as keywords, so for a tool with at least one
argument the call raises `TypeError` before rendering; only a zero-argument
tool reaches execution. -/
def genToolTry (w : World) (tool : ToolConfig) (resolved : List ToolArgument)
    (argsDict : PyDict) : Except String PyDict :=
  match genValidate w argsDict resolved with
  | some e => .error e
  | Option.none =>
      if resolved.length = 0 then
        match render_template tool.cmd [] with
        | .error e => .error e
        | .ok cmd => .ok (execute_command w cmd (tool.env.getD []))
      else
        .error ("render_template() takes 1 positional argument but " ++
          toString (resolved.length + 1) ++ " were given")

/-- The whole emitted tool body, outer `except` arm included. -/
def genToolBody (w : World) (toolName : String) (tool : ToolConfig)
    (resolved : List ToolArgument) (argsDict : PyDict) : PyDict :=
  match genToolTry w tool resolved argsDict with
  | .ok r => r
  | .error e => toolFailureDict toolName e

/-- The defaulted signature emitted by the generator: parameters in
`signatureParams` order, each carrying its default when it has one. -/
def genSigParams (resolved : List ToolArgument) : List (String × Option PyVal) :=
  (signatureParams resolved).map
    (fun a => (a.name, if a.default = PyVal.none then Option.none else some a.default))

/-- Invocation of a generated-source tool handler: bind the call against the
defaulted signature, then run the emitted body. -/
def genToolInvoke (w : World) (toolName : String) (tool : ToolConfig)
    (resolved : List ToolArgument) (provided : PyDict) : CallResult PyDict :=
  match bindCallWithDefaults (genSigParams resolved) provided with
  | .typeError m => .typeError m
  | .ok argsDict => .ok (genToolBody w toolName tool resolved argsDict)

/-- Python truthiness of an optional template string field
(`if resource.text:`): present and non-empty. -/
def tmplTruthy : Option Tmpl → Bool
  | some t => t ≠ []
  | Option.none => false

/-- Helper: the string held at a key of a result dictionary (all uses are on
dictionaries built by `execute_command`, where the key is present). -/
def getStrAt (d : PyDict) (k : String) : String :=
  match d.lookup k with
  | some (.str s) => s
  | _ => ""

/-- The `try` block of the resource function built by
`runner._register_resource`: dispatch on the content source — literal text
renders and returns; a file path renders, then reads the file, raising
`ValueError` when it is absent; otherwise the command renders and executes,
raising `ValueError` on an unsuccessful result and surfacing only
`stdout`. -/
def resourceTry (w : World) (res : ResourceConfig) (argsDict : PyDict) :
    Except String String :=
  if tmplTruthy res.text then
    render_template (res.text.getD []) argsDict
  else if tmplTruthy res.file then
    match render_template (res.file.getD []) argsDict with
    | .error e => .error e
    | .ok path =>
        match w.files path with
        | Option.none => .error ("Resource file not found: " ++ path)
        | some content => .ok content
  else
    match render_template (res.cmd.getD []) argsDict with
    | .error e => .error e
    | .ok cmd =>
        let result := execute_command w cmd (res.env.getD [])
        if pyTruthy ((result.lookup "success").getD PyVal.none) then
          .ok (getStrAt result "stdout")
        else
          .error ("Command failed: " ++ getStrAt result "stderr")

/-- The whole resource body: the outer `except Exception` arm re-raises
every failure as `ValueError(f"Error in {resource_name}: ...")` — a raised
error, not a result object. -/
def resourceBody (w : World) (resourceName : String) (res : ResourceConfig)
    (argsDict : PyDict) : Except String String :=
  match resourceTry w res argsDict with
  | .ok c => .ok c
  | .error e => .error ("Error in " ++ resourceName ++ ": " ++ e)

/-- Invocation of the resource callable registered by
`runner._register_resource`: as for tools, the `exec`-built signature lists
only the resolved argument names, without the defaults (the computed
defaulted `param_str` is never used), so every argument must be supplied at
the call boundary. -/
def resourceInvoke (w : World) (resourceName : String) (res : ResourceConfig)
    (resolved : List ToolArgument) (provided : PyDict) :
    CallResult (Except String String) :=
  match bindCall (resolved.map ToolArgument.name) provided with
  | .typeError m => .typeError m
  | .ok argsDict => .ok (resourceBody w resourceName res argsDict)

/-- Resolution of a resource's argument list.  Modelled from the spec: this
snapshot's `models.py` omits `get_resolved_resource_arguments` (only its
caller in `runner.py` is present); per spec section 4.2 the resolver
substitutes referenced definitions and passes direct arguments through,
exactly as `get_resolved_arguments` does for tools. -/
def get_resolved_resource_arguments (config : YMLConfig) (res : ResourceConfig) :
    Except String (List ToolArgument) :=
  resolveArgs config (res.args.getD [])

/-- Outcome of one attempt inside the retry loop of a generated handler:
`execute_command` returned a result dictionary, or raised. -/
inductive AttemptOutcome where
  | res (r : PyDict)
  | exn (e : String)
deriving DecidableEq, Repr

/-- Truthiness of `result["success"]`. -/
def dictSuccess (r : PyDict) : Bool :=
  pyTruthy ((r.lookup "success").getD PyVal.none)

/-- An attempt that produced an unsuccessful result dictionary (as opposed
to succeeding or raising). -/
def isFailedResult : AttemptOutcome → Bool
  | .res r => !dictSuccess r
  | .exn _ => false

deriving instance DecidableEq for Except

/-- Trace of the retry loop: how many `execute_command` invocations ran, how
many fixed backoff sleeps separated them, and what the loop produced
(`Except.error` is an exception propagating out of the loop). -/
structure RetryOut where
  invocations : Nat
  sleeps : Nat
  result : Except String PyDict
deriving DecidableEq, Repr

/-- The retry loop emitted into generated handlers (e.g. `databasebackup`
in `enhanced_mcp_server_server.py`), run over the list of the
`max_retries + 1` attempt outcomes:
`for attempt in range(max_retries + 1)`, each attempt executes the command;
a successful result — or any result on the final attempt — returns; a
failed result with retries remaining sleeps and retries; an exception on a
non-final attempt sleeps and retries, and on the final attempt propagates.
An empty list (zero iterations) would reach `return result` with `result`
unbound. -/
def retryExec : List AttemptOutcome → RetryOut
  | [] => ⟨0, 0, .error "NameError: name 'result' is not defined"⟩
  | [o] =>
      match o with
      | .res r => ⟨1, 0, .ok r⟩
      | .exn e => ⟨1, 0, .error e⟩
  | o :: o2 :: rest =>
      match o with
      | .res r =>
          if dictSuccess r then ⟨1, 0, .ok r⟩
          else
            let t := retryExec (o2 :: rest)
            ⟨t.invocations + 1, t.sleeps + 1, t.result⟩
      | .exn _ =>
          let t := retryExec (o2 :: rest)
          ⟨t.invocations + 1, t.sleeps + 1, t.result⟩

/-! Concrete worlds used by witnesses and counterexamples. -/

/-- A world where every command completes immediately with exit code 0. -/
def wOk : World :=
  { run := fun _ _ => .completed 0 "out" "", files := fun _ => Option.none,
    osEnv := [], reMatch := fun _ _ => true }

/-- A world where every command exceeds the wall-clock timeout. -/
def wTimeout : World :=
  { run := fun _ _ => .timeout, files := fun _ => Option.none,
    osEnv := [], reMatch := fun _ _ => true }

/-- A world where every command raises an exception with text `boom`. -/
def wExn : World :=
  { run := fun _ _ => .exn "boom", files := fun _ => Option.none,
    osEnv := [], reMatch := fun _ _ => true }

/-! Shape lemmas for result dictionaries. -/

/-- Every branch of `execute_command` yields the four-field result
dictionary `success`/`stdout`/`stderr`/`returncode`. -/
theorem execute_command_shape (w : World) (cmd : String) (env : List (String × String)) :
    ∃ b s e n, execute_command w cmd env =
      [("success", PyVal.bool b), ("stdout", PyVal.str s),
       ("stderr", PyVal.str e), ("returncode", PyVal.int n)] := by
  cases hw : w.run cmd (dictUpdate w.osEnv env) with
  | completed rc out err => exact ⟨rc == 0, out, err, rc, by simp [execute_command, hw]⟩
  | timeout =>
      exact ⟨false, "", "Command timed out after 5 minutes", -1,
        by simp [execute_command, hw]⟩
  | exn e => exact ⟨false, "", e, -1, by simp [execute_command, hw]⟩

/-- A runtime-bound tool body always returns the four-field result
dictionary, whether the pipeline succeeded or its exception was folded into
the failure shape. -/
theorem runtimeToolBody_shape (w : World) (toolName : String) (tool : ToolConfig)
    (argsDict : PyDict) :
    ∃ b s e n, runtimeToolBody w toolName tool argsDict =
      [("success", PyVal.bool b), ("stdout", PyVal.str s),
       ("stderr", PyVal.str e), ("returncode", PyVal.int n)] := by
  unfold runtimeToolBody runtimeToolTry
  cases hn : firstNoneArg argsDict with
  | some n =>
      exact ⟨false, "",
        "Error in " ++ toolName ++ ": " ++ ("Required argument '" ++ n ++ "' not provided"),
        -1, by simp [hn, toolFailureDict]⟩
  | none =>
      cases hr : render_template tool.cmd argsDict with
      | error e =>
          exact ⟨false, "", "Error in " ++ toolName ++ ": " ++ e, -1,
            by simp [hn, hr, toolFailureDict]⟩
      | ok cmd =>
          obtain ⟨b, s, e, n, hshape⟩ := execute_command_shape w cmd (tool.env.getD [])
          exact ⟨b, s, e, n, by simp [hn, hr, hshape]⟩

/-- C2: the execution engine and every tool handler built on it produce the
four-field result dictionary with keys `success` (bool), `stdout` (text),
`stderr` (text) and `returncode` (int), preserved field-for-field; the
exit-code field is named `returncode`, not `exit_code` as the claim
states. -/
theorem C2_result_shape_returncode (w : World) (cmd : String)
    (env : List (String × String)) (toolName : String) (tool : ToolConfig)
    (argsDict : PyDict) :
    (∃ b s e n, execute_command w cmd env =
      [("success", PyVal.bool b), ("stdout", PyVal.str s),
       ("stderr", PyVal.str e), ("returncode", PyVal.int n)]) ∧
    (∃ b s e n, runtimeToolBody w toolName tool argsDict =
      [("success", PyVal.bool b), ("stdout", PyVal.str s),
       ("stderr", PyVal.str e), ("returncode", PyVal.int n)]) :=
  ⟨execute_command_shape w cmd env, runtimeToolBody_shape w toolName tool argsDict⟩

/-- C2 counterexample: at a concrete successful execution the result's
field names are `success`, `stdout`, `stderr`, `returncode` — the claimed
field name `exit_code` does not occur. -/
theorem C2_exit_code_counterexample :
    resultKeys (execute_command wOk "true" []) =
      ["success", "stdout", "stderr", "returncode"] ∧
    "exit_code" ∉ resultKeys (execute_command wOk "true" []) := by
  constructor
  · rfl
  · decide

/-- C7: a command whose execution exceeds the enforced wall-clock timeout
makes `execute_command` return the failure result with `success = false`
and exit-code field -1 (with the fixed timeout message in `stderr`). -/
theorem C7_timeout_result (w : World) (cmd : String) (env : List (String × String))
    (h : w.run cmd (dictUpdate w.osEnv env) = CmdOutcome.timeout) :
    execute_command w cmd env =
      [("success", PyVal.bool false), ("stdout", PyVal.str ""),
       ("stderr", PyVal.str "Command timed out after 5 minutes"),
       ("returncode", PyVal.int (-1))] := by
  simp [execute_command, h]

/-- C7 witness: in the world where every command times out, the concrete
invocation returns the timeout failure result. -/
theorem C7_timeout_result_witness :
    execute_command wTimeout "sleep 999" [] =
      [("success", PyVal.bool false), ("stdout", PyVal.str ""),
       ("stderr", PyVal.str "Command timed out after 5 minutes"),
       ("returncode", PyVal.int (-1))] :=
  C7_timeout_result wTimeout "sleep 999" [] rfl

/-- C10: `execute_command` is total — every outcome yields the four-field
result dictionary, a timeout becomes a failure result with empty `stdout`
and exit-code field -1, and any other exception becomes a failure result
carrying the exception text in `stderr` with exit-code field -1. -/
theorem C10_execute_command_total (w : World) (cmd : String)
    (env : List (String × String)) :
    (∃ b s e n, execute_command w cmd env =
      [("success", PyVal.bool b), ("stdout", PyVal.str s),
       ("stderr", PyVal.str e), ("returncode", PyVal.int n)]) ∧
    (w.run cmd (dictUpdate w.osEnv env) = CmdOutcome.timeout →
      execute_command w cmd env =
        [("success", PyVal.bool false), ("stdout", PyVal.str ""),
         ("stderr", PyVal.str "Command timed out after 5 minutes"),
         ("returncode", PyVal.int (-1))]) ∧
    (∀ msg, w.run cmd (dictUpdate w.osEnv env) = CmdOutcome.exn msg →
      execute_command w cmd env =
        [("success", PyVal.bool false), ("stdout", PyVal.str ""),
         ("stderr", PyVal.str msg), ("returncode", PyVal.int (-1))]) := by
  refine ⟨execute_command_shape w cmd env, ?_, ?_⟩
  · intro h
    simp [execute_command, h]
  · intro msg h
    simp [execute_command, h]

/-- C10 witness: in the world where every command raises `boom`, the
concrete invocation returns the failure result carrying the exception
text. -/
theorem C10_execute_command_total_witness :
    execute_command wExn "anything" [] =
      [("success", PyVal.bool false), ("stdout", PyVal.str ""),
       ("stderr", PyVal.str "boom"), ("returncode", PyVal.int (-1))] :=
  (C10_execute_command_total wExn "anything" []).2.2 "boom" rfl

/-- A tool used by witnesses: no arguments beyond the probed ones. -/
def toolEcho : ToolConfig := { cmd := [TmplPart.lit "echo hi"], desc := "echo" }

/-- A file-backed resource whose rendered path does not exist in `wOk`. -/
def resMissingFile : ResourceConfig :=
  { uri := "resource://r", name := "R", file := some [TmplPart.lit "/nope"] }

/-- C6: every exception of the runtime tool pipeline is converted by the
outer boundary into the structured failure dictionary (and every tool
invocation returns the four-field result shape, never an escaping
exception), while a resource pipeline failure is re-raised as a descriptive
`Error in <name>: ...` error rather than returned as a result object. -/
theorem C6_handler_error_boundaries :
    (∀ (w : World) (toolName : String) (tool : ToolConfig) (argsDict : PyDict)
       (e : String), runtimeToolTry w tool argsDict = .error e →
         runtimeToolBody w toolName tool argsDict = toolFailureDict toolName e) ∧
    (∀ (w : World) (toolName : String) (tool : ToolConfig) (argsDict : PyDict),
       ∃ b s er n, runtimeToolBody w toolName tool argsDict =
         [("success", PyVal.bool b), ("stdout", PyVal.str s),
          ("stderr", PyVal.str er), ("returncode", PyVal.int n)]) ∧
    (∀ (w : World) (resourceName : String) (res : ResourceConfig) (argsDict : PyDict)
       (e : String), resourceTry w res argsDict = .error e →
         resourceBody w resourceName res argsDict =
           .error ("Error in " ++ resourceName ++ ": " ++ e)) := by
  refine ⟨?_, runtimeToolBody_shape, ?_⟩
  · intro w toolName tool argsDict e h
    simp [runtimeToolBody, h]
  · intro w resourceName res argsDict e h
    simp [resourceBody, h]

/-- C6 witness: a `None`-valued argument makes the concrete tool invocation
return the structured failure value, and a missing resource file makes the
concrete resource invocation raise the descriptive error. -/
theorem C6_handler_error_boundaries_witness :
    runtimeToolBody wOk "T" toolEcho [("x", PyVal.none)] =
      toolFailureDict "T" "Required argument 'x' not provided" ∧
    resourceBody wOk "R" resMissingFile [] =
      .error "Error in R: Resource file not found: /nope" :=
  ⟨C6_handler_error_boundaries.1 wOk "T" toolEcho [("x", PyVal.none)] _ rfl,
   C6_handler_error_boundaries.2.2 wOk "R" resMissingFile [] _ rfl⟩

/-- Reference expansion keeps the operation-local argument name. -/
theorem resolveArg_name (config : YMLConfig) (a b : ToolArgument)
    (h : resolveArg config a = .ok b) : b.name = a.name := by
  unfold resolveArg at h
  cases ha : a.ref with
  | none =>
      simp only [ha, Except.ok.injEq] at h
      subst h
      rfl
  | some r =>
      simp only [ha] at h
      cases hl : (config.args.getD []).lookup r with
      | none => simp [hl] at h
      | some refArg =>
          simp only [hl, Except.ok.injEq] at h
          subst h
          rfl

/-- Successful resolution preserves the declared argument names in
declaration order. -/
theorem resolveArgs_names (config : YMLConfig) :
    ∀ (l res : List ToolArgument), resolveArgs config l = .ok res →
      res.map ToolArgument.name = l.map ToolArgument.name := by
  intro l
  induction l with
  | nil =>
      intro res h
      unfold resolveArgs at h
      simp only [Except.ok.injEq] at h
      subst h
      rfl
  | cons a rest ih =>
      intro res h
      unfold resolveArgs at h
      cases hr : resolveArg config a with
      | error e => rw [hr] at h; exact absurd h (by simp)
      | ok r =>
          rw [hr] at h
          cases hrest : resolveArgs config rest with
          | error e => rw [hrest] at h; exact absurd h (by simp)
          | ok rs =>
              rw [hrest] at h
              simp only [Except.ok.injEq] at h
              subst h
              simp [resolveArg_name config a r hr, ih rs hrest]

/-- The grouping fold splits a list into its default-less and defaulted
arguments, each group in declaration order. -/
theorem sigStep_foldl (l : List ToolArgument) :
    ∀ acc1 acc2, l.foldl sigStep (acc1, acc2) =
      (acc1 ++ l.filter (fun a => !isDefaulted a),
       acc2 ++ l.filter (fun a => isDefaulted a)) := by
  induction l with
  | nil => intro acc1 acc2; simp
  | cons a rest ih =>
      intro acc1 acc2
      cases h : isDefaulted a with
      | false => simp [sigStep, h, ih, List.filter_cons]
      | true => simp [sigStep, h, ih, List.filter_cons]

/-- The emitted parameter list is the default-less arguments followed by the
defaulted ones, both groups in declaration order. -/
theorem signatureParams_eq_filter (l : List ToolArgument) :
    signatureParams l =
      l.filter (fun a => !isDefaulted a) ++ l.filter (fun a => isDefaulted a) := by
  unfold signatureParams
  rw [sigStep_foldl]
  simp

/-- A default-less block followed by a defaulted block satisfies the
ordering property. -/
theorem defaultlessFirst_append (l1 l2 : List ToolArgument)
    (h1 : ∀ a ∈ l1, isDefaulted a = false) (h2 : ∀ a ∈ l2, isDefaulted a = true) :
    defaultlessFirst (l1 ++ l2) = true := by
  induction l1 with
  | nil =>
      simp only [List.nil_append]
      cases l2 with
      | nil => rfl
      | cons b bs =>
          have hb := h2 b (List.mem_cons_self b bs)
          simp only [defaultlessFirst, hb, if_true, List.all_eq_true]
          intro x hx
          exact h2 x (List.mem_cons_of_mem b hx)
  | cons a as ih =>
      have ha := h1 a (List.mem_cons_self a as)
      simp only [List.cons_append, defaultlessFirst, ha, Bool.false_eq_true, if_false]
      exact ih (fun x hx => h1 x (List.mem_cons_of_mem a hx))

/-- C4 (amended): reference resolution preserves pure declaration order — it
does not move default-less arguments forward — and it is the emitted
function signature (`signatureParams`) that places all default-less
parameters before all defaulted ones, each group keeping declaration
order. -/
theorem C4_resolved_declaration_order (config : YMLConfig) (toolName : String)
    (tool : ToolConfig) (resolved : List ToolArgument)
    (htool : findTool config toolName = some tool)
    (hres : get_resolved_arguments config toolName = .ok resolved) :
    resolved.map ToolArgument.name = (tool.args.getD []).map ToolArgument.name ∧
    signatureParams resolved =
      resolved.filter (fun a => !isDefaulted a) ++
        resolved.filter (fun a => isDefaulted a) ∧
    defaultlessFirst (signatureParams resolved) = true := by
  refine ⟨?_, signatureParams_eq_filter resolved, ?_⟩
  · unfold get_resolved_arguments at hres
    simp only [htool] at hres
    cases hargs : tool.args with
    | none =>
        simp only [hargs, Except.ok.injEq] at hres
        subst hres
        rfl
    | some args =>
        simp only [hargs] at hres
        simpa using resolveArgs_names config args resolved hres
  · rw [signatureParams_eq_filter]
    apply defaultlessFirst_append
    · intro a ha
      simpa using (List.mem_filter.mp ha).2
    · intro a ha
      exact (List.mem_filter.mp ha).2

/-- The defaulted argument of the C4 counterexample, declared first. -/
def argA4 : ToolArgument := { name := "a", help := "optional flag", default := PyVal.str "x" }

/-- The default-less argument of the C4 counterexample, declared second. -/
def argB4 : ToolArgument := { name := "b", help := "required value" }

/-- Tool declaring a defaulted argument before a default-less one. -/
def toolC4 : ToolConfig :=
  { cmd := [TmplPart.lit "echo ", TmplPart.var "a", TmplPart.lit " ", TmplPart.var "b"],
    desc := "Defaulted argument declared first",
    args := some [argA4, argB4] }

/-- Configuration for the C4 counterexample. -/
def cfgC4 : YMLConfig :=
  { server := { name := "test", desc := "Test server" },
    tools := some [("TestTool", toolC4)] }

/-- C4 counterexample: the resolved argument list of `TestTool` keeps the
defaulted argument `a` ahead of the default-less argument `b`, so the
resolved list does not place all default-less arguments first. -/
theorem C4_declaration_order_counterexample :
    get_resolved_arguments cfgC4 "TestTool" = .ok [argA4, argB4] ∧
    isDefaulted argA4 = true ∧ isDefaulted argB4 = false ∧
    defaultlessFirst [argA4, argB4] = false := by
  refine ⟨rfl, ?_, rfl, rfl⟩
  decide

/-- C4 witness: the amended statement evaluated at the counterexample
configuration. -/
theorem C4_resolved_declaration_order_witness :
    ([argA4, argB4] : List ToolArgument).map ToolArgument.name =
      (toolC4.args.getD []).map ToolArgument.name ∧
    signatureParams [argA4, argB4] =
      ([argA4, argB4].filter (fun a => !isDefaulted a) ++
        [argA4, argB4].filter (fun a => isDefaulted a)) ∧
    defaultlessFirst (signatureParams [argA4, argB4]) = true :=
  C4_resolved_declaration_order cfgC4 "TestTool" toolC4 [argA4, argB4] rfl rfl

/-- Tool whose command interpolates one variable, for C3. -/
def toolC3 : ToolConfig :=
  { cmd := [TmplPart.lit "echo ", TmplPart.var "message"], desc := "Test tool" }

/-- Configuration for the C3 evaluation. -/
def cfgC3 : YMLConfig :=
  { server := { name := "test", desc := "Test server" },
    tools := some [("TestTool", toolC3)] }

/-- C3: `get_template_variables` returns the empty list for every
configuration and tool — the `template.parse()` call raises
`AttributeError`, which the `except` arm folds into `[]` — so for the tool
whose command is `echo {{ message }}` it does not return the interpolated
name `message`. -/
theorem C3_template_variables_always_empty :
    (∀ (config : YMLConfig) (toolName : String),
       get_template_variables config toolName = []) ∧
    get_template_variables cfgC3 "TestTool" = [] ∧
    get_template_variables cfgC3 "TestTool" ≠ ["message"] := by
  refine ⟨?_, rfl, by decide⟩
  intro config toolName
  unfold get_template_variables
  cases findTool config toolName with
  | none => rfl
  | some tool => rfl

/-- C5: an argument carrying only a name, help text and a reference is
rejected — under pydantic v1 semantics `values['type']` holds the applied
default `"string"` when the `ref` validator runs, so the exclusivity check
always fires on `type`; indeed every argument carrying a reference is
rejected with that message, whatever else it carries. -/
theorem C5_ref_only_argument_rejected :
    validateToolArgument
        { name := "test_arg", help := "Test argument", ref? := some "SomeRef" } =
      .error "Cannot use 'ref' with 'type' - use one or the other" ∧
    (∀ (input : ToolArgumentInput) (r : String),
       validateToolArgument { input with ref? := some r } =
         .error "Cannot use 'ref' with 'type' - use one or the other") :=
  ⟨rfl, fun _ _ => rfl⟩

/-- The resource argument of the C9 scenario: `user` with default
`"User"`. -/
def userArg : ToolArgument :=
  { name := "user", help := "User name", default := PyVal.str "User" }

/-- The C9 resource: literal text `Hello {{ user }}!` with the single
defaulted argument. -/
def resC9 : ResourceConfig :=
  { uri := "resource://hello", name := "Hello",
    args := some [userArg],
    text := some [TmplPart.lit "Hello ", TmplPart.var "user", TmplPart.lit "!"] }

/-- Configuration for the C9 scenario. -/
def cfgC9 : YMLConfig :=
  { server := { name := "test", desc := "Test server" },
    resources := some [("Hello", resC9)] }

/-- C9: the registered resource callable lists `user` without its default
(the `exec`-built signature drops defaults), so the no-argument invocation
raises `TypeError` at the call boundary instead of returning
`Hello User!`; with the binding the default would have supplied, the
handler does return `Hello User!` without consulting the process runner
(zero subprocess executions) in every world. -/
theorem C9_resource_default_omission_fails :
    get_resolved_resource_arguments cfgC9 resC9 = .ok [userArg] ∧
    resourceInvoke wOk "Hello" resC9 [userArg] [] =
      .typeError "missing a required argument: 'user'" ∧
    (∀ w : World,
       resourceInvoke w "Hello" resC9 [userArg] [("user", PyVal.str "User")] =
         .ok (.ok "Hello User!")) :=
  ⟨rfl, rfl, fun _ => rfl⟩

/-- The C1 argument: `metric` restricted to three choices, no default. -/
def metricArg : ToolArgument :=
  { name := "metric", help := "Metric to monitor",
    choices := some [PyVal.str "cpu", PyVal.str "memory", PyVal.str "disk"] }

/-- The C1 tool: command interpolating `metric`. -/
def toolC1 : ToolConfig :=
  { cmd := [TmplPart.lit "top -m ", TmplPart.var "metric"],
    desc := "Monitor system metrics", args := some [metricArg] }

/-- Configuration for the C1 divergence. -/
def cfgC1 : YMLConfig :=
  { server := { name := "monitor-server", desc := "Monitoring" },
    tools := some [("system-monitor", toolC1)] }

/-- C1: at identical spec and arguments (`metric = "gpu"`, violating the
choice set) the two modes diverge — the generated-source handler rejects
the value before rendering and returns the structured validation failure in
every world (no subprocess runs), while the runtime-bound handler performs
no pattern/choice validation, renders the command and executes it,
returning the execution result. -/
theorem C1_generated_and_runtime_modes_diverge :
    get_resolved_arguments cfgC1 "system-monitor" = .ok [metricArg] ∧
    (∀ w : World,
       genToolInvoke w "system-monitor" toolC1 [metricArg]
           [("metric", PyVal.str "gpu")] =
         .ok (toolFailureDict "system-monitor"
           "Invalid metric: must be one of ['cpu', 'memory', 'disk']")) ∧
    runtimeToolInvoke wOk "system-monitor" toolC1 [metricArg]
        [("metric", PyVal.str "gpu")] =
      .ok [("success", PyVal.bool true), ("stdout", PyVal.str "out"),
           ("stderr", PyVal.str ""), ("returncode", PyVal.int 0)] ∧
    genToolInvoke wOk "system-monitor" toolC1 [metricArg]
        [("metric", PyVal.str "gpu")] ≠
      runtimeToolInvoke wOk "system-monitor" toolC1 [metricArg]
        [("metric", PyVal.str "gpu")] := by
  refine ⟨rfl, fun w => rfl, rfl, by decide⟩

/-- Retry loop: a success at index `k`, after `k` failed results, returns
that success after exactly `k + 1` invocations and `k` backoff sleeps. -/
theorem retry_first_success (k : Nat) :
    ∀ (outcomes : List AttemptOutcome) (s : PyDict) (hk : k < outcomes.length),
      (∀ i (hi : i < k),
        isFailedResult (outcomes.get ⟨i, Nat.lt_trans hi hk⟩) = true) →
      outcomes.get ⟨k, hk⟩ = AttemptOutcome.res s → dictSuccess s = true →
      retryExec outcomes = ⟨k + 1, k, .ok s⟩ := by
  induction k with
  | zero =>
      intro outcomes s hk hfail hsucc hs
      cases outcomes with
      | nil => simp at hk
      | cons o rest =>
          have ho : o = AttemptOutcome.res s := hsucc
          subst ho
          cases rest with
          | nil => simp [retryExec]
          | cons o2 rest2 => simp [retryExec, hs]
  | succ k' ih =>
      intro outcomes s hk hfail hsucc hs
      cases outcomes with
      | nil => simp at hk
      | cons o rest =>
          cases rest with
          | nil =>
              simp only [List.length_cons, List.length_nil] at hk
              omega
          | cons o2 rest2 =>
              have h0 : isFailedResult o = true := hfail 0 (Nat.succ_pos k')
              cases o with
              | exn e => simp [isFailedResult] at h0
              | res r =>
                  have hr : dictSuccess r = false := by
                    simpa [isFailedResult] using h0
                  have hk2 : k' < (o2 :: rest2).length := by
                    simp only [List.length_cons] at hk ⊢
                    omega
                  have hrec := ih (o2 :: rest2) s hk2
                    (fun i hi => hfail (i + 1) (Nat.succ_lt_succ hi))
                    hsucc hs
                  simp [retryExec, hr, hrec]

/-- Retry loop: when every attempt yields a failed result, the loop runs
all attempts, sleeping between consecutive ones, and returns the last
failure as its result. -/
theorem retry_exhaust :
    ∀ (outcomes : List AttemptOutcome), outcomes ≠ [] →
      (∀ o ∈ outcomes, isFailedResult o = true) →
      ∃ r, outcomes.getLast? = some (AttemptOutcome.res r) ∧
        retryExec outcomes = ⟨outcomes.length, outcomes.length - 1, .ok r⟩ := by
  intro outcomes
  induction outcomes with
  | nil => intro h; exact absurd rfl h
  | cons o rest ih =>
      intro _ hall
      cases rest with
      | nil =>
          have h0 := hall o (List.mem_cons_self o [])
          cases o with
          | exn e => simp [isFailedResult] at h0
          | res r => exact ⟨r, rfl, by simp [retryExec]⟩
      | cons o2 rest2 =>
          have h0 := hall o (List.mem_cons_self o (o2 :: rest2))
          obtain ⟨rl, hlast, hrec⟩ :=
            ih (by simp) (fun x hx => hall x (List.mem_cons_of_mem o hx))
          cases o with
          | exn e => simp [isFailedResult] at h0
          | res r =>
              have hr : dictSuccess r = false := by
                simpa [isFailedResult] using h0
              refine ⟨rl, ?_, ?_⟩
              · rw [List.getLast?_cons_cons]
                exact hlast
              · simp only [retryExec, hr, Bool.false_eq_true, if_false, hrec,
                  List.length_cons, RetryOut.mk.injEq]
                exact ⟨trivial, by omega, trivial⟩

/-- C8: the generated retry loop, run over the `maxRetries + 1` possible
attempt outcomes — with `k` failing results before a success (so
`maxRetries ≥ k`), exactly `k + 1` command invocations happen with `k`
fixed backoff sleeps between them and the success result is returned,
the first success short-circuiting the remaining attempts; and when every
attempt fails, all attempts run and the last failure is returned. -/
theorem C8_retry_semantics :
    (∀ (k : Nat) (outcomes : List AttemptOutcome) (s : PyDict)
       (hk : k < outcomes.length),
       (∀ i (hi : i < k),
         isFailedResult (outcomes.get ⟨i, Nat.lt_trans hi hk⟩) = true) →
       outcomes.get ⟨k, hk⟩ = AttemptOutcome.res s → dictSuccess s = true →
       retryExec outcomes = ⟨k + 1, k, .ok s⟩) ∧
    (∀ (outcomes : List AttemptOutcome), outcomes ≠ [] →
       (∀ o ∈ outcomes, isFailedResult o = true) →
       ∃ r, outcomes.getLast? = some (AttemptOutcome.res r) ∧
         retryExec outcomes = ⟨outcomes.length, outcomes.length - 1, .ok r⟩) :=
  ⟨retry_first_success, retry_exhaust⟩

/-- A failed result dictionary for the C8 witness. -/
def failDict : PyDict :=
  [("success", PyVal.bool false), ("stdout", PyVal.str ""),
   ("stderr", PyVal.str "err"), ("returncode", PyVal.int 1)]

/-- A successful result dictionary for the C8 witness. -/
def succDict : PyDict :=
  [("success", PyVal.bool true), ("stdout", PyVal.str "ok"),
   ("stderr", PyVal.str ""), ("returncode", PyVal.int 0)]

/-- C8 witness: with `maxRetries = 2` and one failure before a success, the
loop invokes twice with one sleep and returns the success; with
`maxRetries = 1` and only failures, both attempts run and the last failure
is returned. -/
theorem C8_retry_semantics_witness :
    retryExec [.res failDict, .res succDict, .res failDict] = ⟨2, 1, .ok succDict⟩ ∧
    retryExec [.res failDict, .res failDict] =
      ⟨2, 1, .ok failDict⟩ := by
  constructor
  · have hk : 1 < ([.res failDict, .res succDict, .res failDict] :
        List AttemptOutcome).length := by decide
    exact C8_retry_semantics.1 1
      [.res failDict, .res succDict, .res failDict] succDict hk
      (by
        intro i hi
        have hi0 : i = 0 := by omega
        subst hi0
        exact rfl)
      rfl (by decide)
  · obtain ⟨r, hlast, hrec⟩ := C8_retry_semantics.2
      [.res failDict, .res failDict] (by simp) (by decide)
    have hr : r = failDict := by
      simpa using hlast.symm
    subst hr
    simpa using hrec

end Shellmcp
